import Mathlib

/-
  Verification development for the pyshelly repository (src/shelly/shelly.py).

  The Python module drives a Shelly1 relay actuator over HTTP.  We shallowly
  embed the module: the remote actuator becomes a `Device` (the list of relay
  `ison` booleans from the status JSON), HTTP requests and sleeps become
  entries of an event trace, Python values passed to the public methods become
  `PyVal`, Python exceptions become `PyErr`, and each method becomes a pure
  Lean function from controller state, device and arguments to an `Outcome`
  (trace, final device, final controller state, result).  Threads are not
  executed synchronously: spawning a thread is recorded as an event carrying
  the thread's `Target` (the target function together with the args/kwargs of
  the call site), and `runTarget` gives the semantics of the spawned thread,
  including Python's call-time binding of args/kwargs to parameters
  (`bindCall`), which raises TypeError on an unexpected keyword argument.

  Unbounded or externally-stopped loops take a `readStop` oracle giving the
  value of the shared `_stop_oscillation` flag at each loop-condition check
  (modelling concurrent writes by other threads) and a `fuel` bound;
  exhausted fuel yields the `PyErr.nonterm` marker, meaning "loop still
  running", not a Python error.
-/

/-- Python runtime values, as far as the module's assert-based validation
distinguishes them.  `type(True) == int` is false in Python, so booleans are a
separate constructor from integers.  Floats are modelled as rationals. -/
inductive PyVal
  | int (n : ℤ)
  | float (q : ℚ)
  | bool (b : Bool)
  | str (s : String)
  | pynone
deriving DecidableEq, Repr

/-- Python exceptions relevant to the module, plus the fuel-exhaustion marker
`nonterm` (a loop that is still running, not an error raised by Python). -/
inductive PyErr
  | assertionError
  | typeError
  | indexError
  | nonterm
deriving DecidableEq, Repr

def PyVal.isInt : PyVal → Bool
  | .int _ => true
  | _ => false

def PyVal.isBool : PyVal → Bool
  | .bool _ => true
  | _ => false

/-- Mirrors Python `type(x) in (int, float)`. -/
def PyVal.isNum : PyVal → Bool
  | .int _ => true
  | .float _ => true
  | _ => false

/-- Numeric value of an int/float PyVal (only used after the type asserts). -/
def PyVal.toRatD : PyVal → ℚ
  | .int n => (n : ℚ)
  | .float q => q
  | _ => 0

def PyVal.toIntD : PyVal → ℤ
  | .int n => n
  | _ => 0

def PyVal.toBoolD : PyVal → Bool
  | .bool b => b
  | _ => false

/-- Mirrors the Python comparison `x >= q` for an int/float `x` (false on
non-numeric values, where Python would fail the preceding type assert). -/
def PyVal.numGE (v : PyVal) (q : ℚ) : Bool :=
  match v with
  | .int n => decide (q ≤ (n : ℚ))
  | .float x => decide (q ≤ x)
  | _ => false

/-- Mirrors the Python comparison `x > m` for an int `x`. -/
def PyVal.intGT (v : PyVal) (m : ℤ) : Bool :=
  match v with
  | .int n => decide (m < n)
  | _ => false

/-- RelayState enum of shelly.py lines 10-12: ON has value True, OFF False. -/
inductive RelayState
  | ON
  | OFF
deriving DecidableEq, Repr

/-- The `.value` of the Python enum member. -/
def RelayState.value : RelayState → Bool
  | .ON => true
  | .OFF => false

/-- The remote actuator: the `relays` entry of the status JSON, one `ison`
boolean per relay, in relay-id order. -/
structure Device where
  relays : List Bool
deriving DecidableEq, Repr

/-- Normalisation of a Python list index: negative indices count from the
end of the list. -/
def pyNorm (len : ℕ) (i : ℤ) : ℤ :=
  if i < 0 then (len : ℤ) + i else i

/-- Python list indexing: negative indices count from the end; out-of-range
indexing is an IndexError (`none`). -/
def pyIdx (len : ℕ) (i : ℤ) : Option ℕ :=
  if 0 ≤ pyNorm len i ∧ pyNorm len i < (len : ℤ) then some (pyNorm len i).toNat
  else none

def pyGet {α : Type} (xs : List α) (i : ℤ) : Option α :=
  match pyIdx xs.length i with
  | none => none
  | some j => xs.get? j

def pySet (xs : List Bool) (i : ℤ) (b : Bool) : List Bool :=
  match pyIdx xs.length i with
  | none => xs
  | some j => xs.set j b

/-- The relay id denotes an existing relay of the device. -/
def validIdx (i : ℤ) (dev : Device) : Prop :=
  (pyIdx dev.relays.length i).isSome = true

instance (i : ℤ) (dev : Device) : Decidable (validIdx i dev) := by
  unfold validIdx; infer_instance

instance {e a : Type} [DecidableEq e] [DecidableEq a] : DecidableEq (Except e a) :=
  fun x y =>
    match x, y with
    | .error u, .error v =>
      if h : u = v then isTrue (by rw [h]) else isFalse (fun hc => by cases hc; exact h rfl)
    | .ok u, .ok v =>
      if h : u = v then isTrue (by rw [h]) else isFalse (fun hc => by cases hc; exact h rfl)
    | .error _, .ok _ => isFalse (fun hc => by cases hc)
    | .ok _, .error _ => isFalse (fun hc => by cases hc)

/-- A thread target together with the args/kwargs of the `threading.Thread`
call site that creates it (shelly.py lines 128, 179-180, 235-236).  The
watcher target records the `relay_id` captured by the closure. -/
inductive Target
  | oscillateT (relay_id period : PyVal)
  | oscillateCyclesT (relay_id period cycles start_state final_state : PyVal)
  | stopOscillationInT (relay_id period timeout start_state final_state : PyVal)
deriving DecidableEq, Repr

/-- Observable effects of a method call, in program order on one thread. -/
inductive Event
  | statusReq
  | powerReq (relay_id : ℤ) (state : Bool)
  | sleep (secs : ℚ)
  | spawn (t : Target)
  | joinThread (t : Target)
deriving DecidableEq, Repr

/-- Return value of a method: Python `None` or a `threading.Thread` handle. -/
inductive Ret
  | pynone
  | handle (t : Target)
deriving DecidableEq, Repr

/-- Controller state: the fields set by `Shelly1.__init__` (lines 15-34). -/
structure Shelly1 where
  host : String
  http_timeout : ℚ
  shelly_base_url : String
  stop_oscillation : Bool
  oscillations : ℚ
deriving DecidableEq, Repr

/-- Constructor `Shelly1.__init__` (lines 15-34): defaults the host, builds the base URL,
sets `_stop_oscillation = True` and `_oscillations = 0`. -/
def Shelly1.init (host : Option String) (http_timeout : ℚ) : Shelly1 :=
  let h := host.getD ("192.168.33.1")
  { host := h
    http_timeout := http_timeout
    shelly_base_url := ("http://") ++ h
    stop_oscillation := true
    oscillations := 0 }

/-- Result of running one method (or one thread body) to completion:
the event trace it emitted, the device and controller state it left behind,
and its result or the exception it raised. -/
structure Outcome where
  events : List Event
  dev : Device
  st : Shelly1
  res : Except PyErr Ret
deriving Repr

/-- Model of `get_relays` (lines 43-52): one status request, then a loop over
`range(len(status['relays']))` appending `(i, ON if ison else OFF)`. -/
def get_relays (dev : Device) : List Event × List (ℕ × RelayState) :=
  ([Event.statusReq],
    (List.range dev.relays.length).foldl
      (fun relays i =>
        relays ++ [(i, if dev.relays.getD i false then RelayState.ON else RelayState.OFF)])
      [])

/-- Model of `get_relay_state` (lines 54-63): a status request, then
`status['relays'][relay_id]['ison']` (IndexError when out of range). -/
def get_relay_state (dev : Device) (relay_id : ℤ) : Except PyErr (List Event × RelayState) :=
  match pyGet dev.relays relay_id with
  | none => .error .indexError
  | some b => .ok ([Event.statusReq], if b then RelayState.ON else RelayState.OFF)

/-- Model of `power` (lines 65-83): one `/relay/{id}?turn=` request; the actuator sets
the relay and the reported `ison` of the response is the state just set. -/
def power (dev : Device) (relay_id : ℤ) (state : Bool) :
    Except PyErr (List Event × Device × RelayState) :=
  match pyIdx dev.relays.length relay_id with
  | none => .error .indexError
  | some _ =>
    .ok ([Event.powerReq relay_id state], ⟨pySet dev.relays relay_id state⟩,
      if state then RelayState.ON else RelayState.OFF)

/-- Model of `toggle` (lines 86-98): read the relay state, then command the opposite. -/
def toggle (dev : Device) (relay_id : ℤ) :
    Except PyErr (List Event × Device × RelayState) :=
  match get_relay_state dev relay_id with
  | .error e => .error e
  | .ok (evs, s) =>
    match (if s = RelayState.ON then power dev relay_id false
           else power dev relay_id true) with
    | .error e => .error e
    | .ok (evs2, dev2, s2) => .ok (evs ++ evs2, dev2, s2)

/-- The assert block of `oscillate` (lines 109-112): relay_id is an int,
period is an int or float, period >= 0.05, block is a bool. -/
def oscillate_asserts (relay_id period block : PyVal) : Bool :=
  relay_id.isInt && period.isNum && period.numGE (1/20 : ℚ) && block.isBool

/-- The assert block of `oscillate_timeout` (lines 143-149): additionally
timeout is a positive int and final_state is a bool.  Note the source does
not type-check `start_state`. -/
def oscillate_timeout_asserts (relay_id period timeout block final_state : PyVal) : Bool :=
  relay_id.isInt && period.isNum && period.numGE (1/20 : ℚ) &&
    timeout.isInt && timeout.intGT 0 && block.isBool && final_state.isBool

/-- The assert block of `oscillate_cycles` (lines 201-208): additionally
cycles is a positive int and start_state/final_state are bools. -/
def oscillate_cycles_asserts
    (relay_id period cycles block start_state final_state : PyVal) : Bool :=
  relay_id.isInt && period.isNum && period.numGE (1/20 : ℚ) &&
    cycles.isInt && cycles.intGT 0 && block.isBool &&
    start_state.isBool && final_state.isBool

/-- The `while not self._stop_oscillation:` loop of `oscillate`
(lines 119-125): each iteration toggles, adds 1 to `_oscillations`, then
sleeps one period.  `readStop k` is the value of the shared flag at the k-th
condition check; the result carries the trace, final device, final
`_oscillations`, and the number of iterations (= toggles) performed. -/
def oscillate_loop (rid : ℤ) (p : ℚ) (readStop : ℕ → Bool) :
    ℕ → Device → ℚ → ℕ → Except PyErr (List Event × Device × ℚ × ℕ)
  | _, _dev, _osc, 0 => .error .nonterm
  | k, dev, osc, fuel + 1 =>
    if readStop k = true then .ok ([], dev, osc, 0)
    else
      match toggle dev rid with
      | .error e => .error e
      | .ok (evs, dev2, _) =>
        match oscillate_loop rid p readStop (k + 1) dev2 (osc + 1) fuel with
        | .error e => .error e
        | .ok (evs2, dev3, osc3, n) =>
          .ok (evs ++ Event.sleep p :: evs2, dev3, osc3, n + 1)

/-- The `while not self._stop_oscillation and self._oscillations < cycles:`
loop of `oscillate_cycles` (lines 222-229): each iteration toggles, sleeps one
period, then adds 0.5 to `_oscillations`. -/
def oscillate_cycles_loop (rid : ℤ) (p cyc : ℚ) (readStop : ℕ → Bool) :
    ℕ → Device → ℚ → ℕ → Except PyErr (List Event × Device × ℚ × ℕ)
  | _, _dev, _osc, 0 => .error .nonterm
  | k, dev, osc, fuel + 1 =>
    if readStop k = true ∨ ¬ (osc < cyc) then .ok ([], dev, osc, 0)
    else
      match toggle dev rid with
      | .error e => .error e
      | .ok (evs, dev2, _) =>
        match oscillate_cycles_loop rid p cyc readStop (k + 1) dev2 (osc + (1/2 : ℚ)) fuel with
        | .error e => .error e
        | .ok (evs2, dev3, osc3, n) =>
          .ok (evs ++ Event.sleep p :: evs2, dev3, osc3, n + 1)

/-- Model of `oscillate` (lines 100-130).  Blocking: reset the stop flag to False and
the counter to 0, then run the toggle loop.  Non-blocking: spawn a thread
whose target is `self.oscillate` with args `(relay_id, period)` (line 128) and
return its handle.  Falls off the end (returns None) when blocking. -/
def oscillate (relay_id period block : PyVal) (st : Shelly1) (dev : Device)
    (readStop : ℕ → Bool) (fuel : ℕ) : Outcome :=
  if oscillate_asserts relay_id period block = true then
    if block = PyVal.bool true then
      let st1 := { st with stop_oscillation := false, oscillations := 0 }
      match oscillate_loop relay_id.toIntD period.toRatD readStop 0 dev 0 fuel with
      | .error e => ⟨[], dev, st1, .error e⟩
      | .ok (evs, dev2, osc2, _) =>
        ⟨evs, dev2, { st1 with oscillations := osc2 }, .ok Ret.pynone⟩
    else
      let t := Target.oscillateT relay_id period
      ⟨[Event.spawn t], dev, st, .ok (Ret.handle t)⟩
  else ⟨[], dev, st, .error .assertionError⟩

/-- Model of `oscillate_cycles` (lines 186-238).  Blocking: reset the stop flag, set
the starting state if needed (with one settling sleep), reset the counter,
run the cycle-bounded loop, then enforce the final state if needed.
Non-blocking: spawn a thread targeting `self.oscillate_cycles` with args
`(relay_id, period, cycles)` and kwargs start_state/final_state
(lines 235-237) and return its handle. -/
def oscillate_cycles (relay_id period cycles block start_state final_state : PyVal)
    (st : Shelly1) (dev : Device) (readStop : ℕ → Bool) (fuel : ℕ) : Outcome :=
  if oscillate_cycles_asserts relay_id period cycles block start_state final_state = true then
    if block = PyVal.bool true then
      let st1 := { st with stop_oscillation := false }
      match get_relay_state dev relay_id.toIntD with
      | .error e => ⟨[], dev, st1, .error e⟩
      | .ok (evsA, s0) =>
        match (if s0.value = start_state.toBoolD then (.ok ([], dev) : Except PyErr (List Event × Device))
               else match power dev relay_id.toIntD start_state.toBoolD with
                    | .error e => .error e
                    | .ok (evsB, devB, _) => .ok (evsB ++ [Event.sleep period.toRatD], devB)) with
        | .error e => ⟨evsA, dev, st1, .error e⟩
        | .ok (evsB, devB) =>
          let st2 := { st1 with oscillations := 0 }
          match oscillate_cycles_loop relay_id.toIntD period.toRatD cycles.toRatD
              readStop 0 devB 0 fuel with
          | .error e => ⟨evsA ++ evsB, devB, st2, .error e⟩
          | .ok (evsC, devC, oscC, _) =>
            let st3 := { st2 with oscillations := oscC }
            match get_relay_state devC relay_id.toIntD with
            | .error e => ⟨evsA ++ evsB ++ evsC, devC, st3, .error e⟩
            | .ok (evsD, s1) =>
              if s1.value = final_state.toBoolD then
                ⟨evsA ++ evsB ++ evsC ++ evsD, devC, st3, .ok Ret.pynone⟩
              else
                match power devC relay_id.toIntD final_state.toBoolD with
                | .error e => ⟨evsA ++ evsB ++ evsC ++ evsD, devC, st3, .error e⟩
                | .ok (evsE, devE, _) =>
                  ⟨evsA ++ evsB ++ evsC ++ evsD ++ evsE, devE, st3, .ok Ret.pynone⟩
    else
      let t := Target.oscillateCyclesT relay_id period cycles start_state final_state
      ⟨[Event.spawn t], dev, st, .ok (Ret.handle t)⟩
  else ⟨[], dev, st, .error .assertionError⟩

/-- Model of `oscillate_timeout` (lines 132-184).  After the asserts: set the starting
state if needed (lines 171-174, synchronously on the caller's thread), start
the toggle loop in the background via `self.oscillate(relay_id, period,
block=False)` (line 176), spawn the watcher thread with args
`(period, timeout)` and kwargs start_state/final_state (lines 179-181), and
join it when blocking.  There is no `return` statement, so the function
returns None for both values of `block`. -/
def oscillate_timeout (relay_id period timeout block start_state final_state : PyVal)
    (st : Shelly1) (dev : Device) : Outcome :=
  if oscillate_timeout_asserts relay_id period timeout block final_state = true then
    match get_relay_state dev relay_id.toIntD with
    | .error e => ⟨[], dev, st, .error e⟩
    | .ok (evsA, s0) =>
      match (if s0.value = start_state.toBoolD then (.ok ([], dev) : Except PyErr (List Event × Device))
             else match power dev relay_id.toIntD start_state.toBoolD with
                  | .error e => .error e
                  | .ok (evsB, devB, _) => .ok (evsB ++ [Event.sleep period.toRatD], devB)) with
      | .error e => ⟨evsA, dev, st, .error e⟩
      | .ok (evsB, devB) =>
        let oscOut := oscillate relay_id period (PyVal.bool false) st devB (fun _ => false) 0
        match oscOut.res with
        | .error e => ⟨evsA ++ evsB ++ oscOut.events, oscOut.dev, oscOut.st, .error e⟩
        | .ok _ =>
          let wt := Target.stopOscillationInT relay_id period timeout start_state final_state
          let evsJoin := if block = PyVal.bool true then [Event.joinThread wt] else []
          ⟨evsA ++ evsB ++ oscOut.events ++ [Event.spawn wt] ++ evsJoin,
            oscOut.dev, oscOut.st, .ok Ret.pynone⟩
  else ⟨[], dev, st, .error .assertionError⟩

/-- Model of `stop_oscillation` (lines 240-242): set the shared flag to True; no HTTP
request, no sleep, no thread interaction, nothing else. -/
def stop_oscillation (st : Shelly1) : Shelly1 × List Event :=
  ({ st with stop_oscillation := true }, [])

/-- A Python function parameter: its name and its default value, if any. -/
def PyParam : Type := String × Option PyVal

/-- Bind positional arguments to the leading parameters.  Returns the bound
pairs and the remaining parameters; `none` means too many positional
arguments (TypeError). -/
def bindPositional : List PyParam → List PyVal →
    Option (List (String × PyVal) × List PyParam)
  | ps, [] => some ([], ps)
  | [], _ :: _ => none
  | p :: ps, a :: as =>
    match bindPositional ps as with
    | none => none
    | some (b, rest) => some ((p.1, a) :: b, rest)

/-- Apply keyword arguments: a kwarg naming an already-bound parameter or no
parameter at all raises TypeError, as Python does at call time. -/
def applyKwargs (bound : List (String × PyVal)) (remaining : List PyParam) :
    List (String × PyVal) → Except PyErr (List (String × PyVal) × List PyParam)
  | [] => .ok (bound, remaining)
  | (n, v) :: ks =>
    if bound.any (fun q => q.1 == n) then .error .typeError
    else if remaining.any (fun q => q.1 == n) then
      applyKwargs (bound ++ [(n, v)]) (remaining.filter (fun q => !(q.1 == n))) ks
    else .error .typeError

/-- Fill in defaults for parameters not bound by args or kwargs; a missing
required parameter raises TypeError. -/
def fillDefaults : List PyParam → Except PyErr (List (String × PyVal))
  | [] => .ok []
  | (n, some d) :: ps =>
    match fillDefaults ps with
    | .error e => .error e
    | .ok rest => .ok ((n, d) :: rest)
  | (_, none) :: _ => .error .typeError

/-- Python call-time binding of args and kwargs to a parameter list. -/
def bindCall (params : List PyParam) (args : List PyVal)
    (kwargs : List (String × PyVal)) : Except PyErr (List (String × PyVal)) :=
  match bindPositional params args with
  | none => .error .typeError
  | some (bound, remaining) =>
    match applyKwargs bound remaining kwargs with
    | .error e => .error e
    | .ok (bound2, remaining2) =>
      match fillDefaults remaining2 with
      | .error e => .error e
      | .ok ds => .ok (bound2 ++ ds)

/-- Look up a bound parameter by name (total; only used after binding). -/
def boundLookup (b : List (String × PyVal)) (name : String) : PyVal :=
  match b.find? (fun q => q.1 == name) with
  | some q => q.2
  | none => PyVal.pynone

/-- Parameter list of `oscillate` (line 100): block defaults to True. -/
def oscillateParams : List PyParam :=
  [(("relay_id"), none), (("period"), none), (("block"), some (PyVal.bool true))]

/-- Parameter list of `oscillate_cycles` (line 186). -/
def oscillateCyclesParams : List PyParam :=
  [(("relay_id"), none), (("period"), none), (("cycles"), none),
   (("block"), some (PyVal.bool true)), (("start_state"), some (PyVal.bool true)),
   (("final_state"), some (PyVal.bool false))]

/-- Parameter list of the inner `_stop_oscillation_in` (line 151): exactly
`period, timeout, final_state`, no defaults — in particular there is no
`start_state` parameter. -/
def stopOscillationInParams : List PyParam :=
  [(("period"), none), (("timeout"), none), (("final_state"), none)]

/-- Body of `_stop_oscillation_in` (lines 151-169), for the case that the
call binding succeeds: reset the shared flag to False, poll-sleep in 0.1s
increments until the timeout elapses (`polls` is the number of polling
iterations the wall clock produces), set the flag to True, sleep one grace
period, then command `final_state` if the relay does not already report it. -/
def stop_oscillation_in_body (rid : ℤ) (p : ℚ) (fs : Bool) (polls : ℕ)
    (st : Shelly1) (dev : Device) : Outcome :=
  let st1 := { st with stop_oscillation := false }
  let pollEvs := List.replicate polls (Event.sleep (1/10 : ℚ))
  let st2 := { st1 with stop_oscillation := true }
  match get_relay_state dev rid with
  | .error e => ⟨pollEvs ++ [Event.sleep p], dev, st2, .error e⟩
  | .ok (evsA, s0) =>
    if s0.value = fs then
      ⟨pollEvs ++ Event.sleep p :: evsA, dev, st2, .ok Ret.pynone⟩
    else
      match power dev rid fs with
      | .error e => ⟨pollEvs ++ Event.sleep p :: evsA, dev, st2, .error e⟩
      | .ok (evsB, devB, _) =>
        ⟨pollEvs ++ Event.sleep p :: evsA ++ evsB, devB, st2, .ok Ret.pynone⟩

/-- Semantics of a spawned thread: Python first binds the call-site args and
kwargs to the target's parameters — raising TypeError before the body runs if
the binding fails — then executes the target's body with the bound values. -/
def runTarget (t : Target) (st : Shelly1) (dev : Device) (readStop : ℕ → Bool)
    (polls fuel : ℕ) : Outcome :=
  match t with
  | .oscillateT rid p =>
    match bindCall oscillateParams [rid, p] [] with
    | .error e => ⟨[], dev, st, .error e⟩
    | .ok b =>
      oscillate (boundLookup b ("relay_id")) (boundLookup b ("period"))
        (boundLookup b ("block")) st dev readStop fuel
  | .oscillateCyclesT rid p cy ss fs =>
    match bindCall oscillateCyclesParams [rid, p, cy]
        [(("start_state"), ss), (("final_state"), fs)] with
    | .error e => ⟨[], dev, st, .error e⟩
    | .ok b =>
      oscillate_cycles (boundLookup b ("relay_id")) (boundLookup b ("period"))
        (boundLookup b ("cycles")) (boundLookup b ("block"))
        (boundLookup b ("start_state")) (boundLookup b ("final_state"))
        st dev readStop fuel
  | .stopOscillationInT rid p tmo ss fs =>
    match bindCall stopOscillationInParams [p, tmo]
        [(("start_state"), ss), (("final_state"), fs)] with
    | .error e => ⟨[], dev, st, .error e⟩
    | .ok b =>
      stop_oscillation_in_body rid.toIntD (boundLookup b ("period")).toRatD
        (boundLookup b ("final_state")).toBoolD polls st dev

/-- The six assignments to `self._stop_oscillation` in shelly.py, by line. -/
inductive StopFlagWrite
  | initLine31
  | oscillateLine116
  | watcherLine154
  | watcherLine160
  | cyclesLine212
  | stopLine242
deriving DecidableEq, Repr

/-- The boolean each assignment writes. -/
def StopFlagWrite.value : StopFlagWrite → Bool
  | .initLine31 => true
  | .oscillateLine116 => false
  | .watcherLine154 => false
  | .watcherLine160 => true
  | .cyclesLine212 => false
  | .stopLine242 => true

/-- The method (Python def) each assignment appears in. -/
def StopFlagWrite.enclosing : StopFlagWrite → String
  | .initLine31 => ("__init__")
  | .oscillateLine116 => ("oscillate")
  | .watcherLine154 => ("_stop_oscillation_in")
  | .watcherLine160 => ("_stop_oscillation_in")
  | .cyclesLine212 => ("oscillate_cycles")
  | .stopLine242 => ("stop_oscillation")

/-- One unfolding step of either toggle loop: prepend the toggle's events and
the period sleep, and count one more iteration. -/
def iterCons (evs : List Event) (p : ℚ) :
    Except PyErr (List Event × Device × ℚ × ℕ) →
    Except PyErr (List Event × Device × ℚ × ℕ)
  | .error e => .error e
  | .ok (evs2, dev, osc, n) => .ok (evs ++ Event.sleep p :: evs2, dev, osc, n + 1)

theorem pyIdx_some_lt {len : ℕ} {i : ℤ} {j : ℕ} (h : pyIdx len i = some j) :
    j < len := by
  unfold pyIdx at h
  split at h
  · rename_i hc
    injection h with h
    omega
  · exact Option.noConfusion h

theorem pySet_length (xs : List Bool) (i : ℤ) (b : Bool) :
    (pySet xs i b).length = xs.length := by
  unfold pySet
  cases h : pyIdx xs.length i with
  | none => rfl
  | some j => simp [List.length_set]

theorem validIdx_of_pyGet {xs : List Bool} {i : ℤ} {b : Bool}
    (h : pyGet xs i = some b) : (pyIdx xs.length i).isSome = true := by
  unfold pyGet at h
  cases hIdx : pyIdx xs.length i with
  | none => rw [hIdx] at h; exact Option.noConfusion h
  | some j => rfl

theorem pyGet_of_validIdx {xs : List Bool} {i : ℤ}
    (h : (pyIdx xs.length i).isSome = true) : ∃ b, pyGet xs i = some b := by
  unfold pyGet
  cases hIdx : pyIdx xs.length i with
  | none => rw [hIdx] at h; exact Bool.noConfusion h
  | some j =>
    have hj : j < xs.length := pyIdx_some_lt hIdx
    exact ⟨xs.get ⟨j, hj⟩, List.get?_eq_get hj⟩

theorem validIdx_congr {dev dev2 : Device} {i : ℤ}
    (hlen : dev2.relays.length = dev.relays.length) (h : validIdx i dev) :
    validIdx i dev2 := by
  unfold validIdx at *
  rw [hlen]
  exact h

theorem get_relay_state_ok {dev : Device} {rid : ℤ} (h : validIdx rid dev) :
    ∃ b, pyGet dev.relays rid = some b ∧
      get_relay_state dev rid
        = .ok ([Event.statusReq], if b then RelayState.ON else RelayState.OFF) := by
  obtain ⟨b, hb⟩ := pyGet_of_validIdx h
  exact ⟨b, hb, by unfold get_relay_state; rw [hb]⟩

theorem power_ok {dev : Device} {rid : ℤ} (state : Bool) (h : validIdx rid dev) :
    power dev rid state
      = .ok ([Event.powerReq rid state], ⟨pySet dev.relays rid state⟩,
          if state then RelayState.ON else RelayState.OFF) := by
  unfold power
  unfold validIdx at h
  cases hIdx : pyIdx dev.relays.length rid with
  | none => rw [hIdx] at h; exact Bool.noConfusion h
  | some j => rfl

theorem toggle_ok {dev : Device} {rid : ℤ} (h : validIdx rid dev) :
    ∃ evs dev2 s, toggle dev rid = .ok (evs, dev2, s) ∧
      dev2.relays.length = dev.relays.length := by
  obtain ⟨b, _, hget⟩ := get_relay_state_ok h
  unfold toggle
  rw [hget]
  cases b with
  | false =>
    simp only [Bool.false_eq_true, if_false]
    rw [if_neg (by simp), power_ok true h]
    exact ⟨_, _, _, rfl, pySet_length _ _ _⟩
  | true =>
    simp only [if_true]
    rw [power_ok false h]
    exact ⟨_, _, _, rfl, pySet_length _ _ _⟩

theorem numGE_float {p q : ℚ} (h : q ≤ p) : (PyVal.float p).numGE q = true := by
  simp [PyVal.numGE, h]

theorem numGE_false_of_lt {v : PyVal} {q : ℚ} (hnum : v.isNum = true)
    (h : v.toRatD < q) : v.numGE q = false := by
  cases v <;> simp_all [PyVal.numGE, PyVal.toRatD, PyVal.isNum, not_le.mpr h]

theorem intGT_int {n m : ℤ} (h : m < n) : (PyVal.int n).intGT m = true := by
  simp [PyVal.intGT, h]

theorem oscillate_asserts_true {rid : ℤ} {p : ℚ} {bl : Bool}
    (hp : (1/20 : ℚ) ≤ p) :
    oscillate_asserts (.int rid) (.float p) (.bool bl) = true := by
  unfold oscillate_asserts
  rw [numGE_float hp]
  rfl

theorem oscillate_timeout_asserts_true {rid : ℤ} {p : ℚ} {tmo : ℤ} {bl fs : Bool}
    (hp : (1/20 : ℚ) ≤ p) (htmo : 0 < tmo) :
    oscillate_timeout_asserts (.int rid) (.float p) (.int tmo) (.bool bl) (.bool fs)
      = true := by
  unfold oscillate_timeout_asserts
  rw [numGE_float hp, intGT_int htmo]
  rfl

theorem oscillate_cycles_asserts_true {rid : ℤ} {p : ℚ} {cy : ℤ} {bl ss fs : Bool}
    (hp : (1/20 : ℚ) ≤ p) (hcy : 0 < cy) :
    oscillate_cycles_asserts (.int rid) (.float p) (.int cy) (.bool bl)
      (.bool ss) (.bool fs) = true := by
  unfold oscillate_cycles_asserts
  rw [numGE_float hp, intGT_int hcy]
  rfl

/-- One iteration of the unbounded toggle loop of `oscillate`: when the stop
flag reads false, the iteration toggles once and continues with the counter
increased by exactly 1. -/
theorem oscillate_loop_step {rid : ℤ} {p : ℚ} {readStop : ℕ → Bool} {k : ℕ}
    {dev dev2 : Device} {osc : ℚ} {fuel : ℕ} {evs : List Event} {s : RelayState}
    (hstop : readStop k = false)
    (htog : toggle dev rid = .ok (evs, dev2, s)) :
    oscillate_loop rid p readStop k dev osc (fuel + 1)
      = iterCons evs p (oscillate_loop rid p readStop (k + 1) dev2 (osc + 1) fuel) := by
  rw [oscillate_loop, if_neg (by simp [hstop])]
  rw [htog]
  dsimp only
  cases h : oscillate_loop rid p readStop (k + 1) dev2 (osc + 1) fuel with
  | error e => rfl
  | ok v => rfl

/-- One iteration of the cycle-bounded toggle loop of `oscillate_cycles`:
when the stop flag reads false and the counter is below the bound, the
iteration toggles once and continues with the counter increased by
exactly 0.5. -/
theorem oscillate_cycles_loop_step {rid : ℤ} {p cyc : ℚ} {readStop : ℕ → Bool}
    {k : ℕ} {dev dev2 : Device} {osc : ℚ} {fuel : ℕ} {evs : List Event}
    {s : RelayState}
    (hstop : readStop k = false) (hosc : osc < cyc)
    (htog : toggle dev rid = .ok (evs, dev2, s)) :
    oscillate_cycles_loop rid p cyc readStop k dev osc (fuel + 1)
      = iterCons evs p
          (oscillate_cycles_loop rid p cyc readStop (k + 1) dev2 (osc + (1/2 : ℚ)) fuel) := by
  rw [oscillate_cycles_loop, if_neg (by simp [hstop, hosc])]
  rw [htog]
  dsimp only
  cases h : oscillate_cycles_loop rid p cyc readStop (k + 1) dev2 (osc + (1/2 : ℚ)) fuel with
  | error e => rfl
  | ok v => rfl

/-- The cycle-bounded loop with the stop flag never set: starting from `j`
half-cycles (counter value `j/2`), it performs exactly `2*c - j` further
toggles and ends with the counter equal to `c`. -/
theorem oscillate_cycles_loop_count (rid : ℤ) (p : ℚ) (c : ℕ) :
    ∀ fuel j k dev, validIdx rid dev → j ≤ 2 * c → 2 * c - j < fuel →
    ∃ evs dev2,
      oscillate_cycles_loop rid p (c : ℚ) (fun _ => false) k dev ((j : ℚ) / 2) fuel
        = .ok (evs, dev2, (c : ℚ), 2 * c - j)
      ∧ dev2.relays.length = dev.relays.length := by
  intro fuel
  induction fuel with
  | zero => intro j k dev _ _ hf; omega
  | succ f ih =>
    intro j k dev hv hj hf
    by_cases hlt : j < 2 * c
    · have hosc : ((j : ℚ) / 2) < (c : ℚ) := by
        rw [div_lt_iff₀ (by norm_num : (0:ℚ) < 2)]
        exact_mod_cast (by omega : j < c * 2)
      obtain ⟨evs, dev2, s, htog, hlen⟩ := toggle_ok hv
      have hv2 : validIdx rid dev2 := validIdx_congr hlen hv
      obtain ⟨evs2, dev3, hloop, hlen3⟩ :=
        ih (j + 1) (k + 1) dev2 hv2 (by omega) (by omega)
      have harg : ((j : ℚ) / 2) + (1/2 : ℚ) = (((j + 1 : ℕ)) : ℚ) / 2 := by
        push_cast
        ring
      refine ⟨evs ++ Event.sleep p :: evs2, dev3, ?_, by omega⟩
      rw [oscillate_cycles_loop_step rfl hosc htog, harg, hloop]
      show Except.ok (evs ++ Event.sleep p :: evs2, dev3, (c : ℚ), (2 * c - (j + 1)) + 1)
        = _
      have : (2 * c - (j + 1)) + 1 = 2 * c - j := by omega
      rw [this]
    · have hj2 : j = 2 * c := by omega
      subst hj2
      refine ⟨[], dev, ?_, rfl⟩
      rw [oscillate_cycles_loop]
      have hosc : ¬ ((((2 * c : ℕ)) : ℚ) / 2 < (c : ℚ)) := by
        push_cast
        rw [not_lt]
        ring_nf
        exact le_refl _
      rw [if_pos (Or.inr hosc)]
      have : (((2 * c : ℕ)) : ℚ) / 2 = (c : ℚ) := by push_cast; ring
      rw [this]
      simp

theorem foldl_append_eq_map {α β : Type} (f : α → β) :
    ∀ (l : List α) (acc : List β),
      l.foldl (fun a i => a ++ [f i]) acc = acc ++ l.map f := by
  intro l
  induction l with
  | nil => intro acc; simp
  | cons x xs ih => intro acc; simp [ih]

/-- C10: for every status document whose relays entry has length n,
get_relays returns exactly n pairs, the i-th being (i, ON) when
relays[i].ison is true and (i, OFF) otherwise, in increasing index order
(the i-th element of the returned list carries index i). -/
theorem get_relays_spec (dev : Device) (i : ℕ) (h : i < dev.relays.length) :
    ((get_relays dev).2).length = dev.relays.length
  ∧ ((get_relays dev).2).get? i
      = some (i, if dev.relays.get ⟨i, h⟩ then RelayState.ON else RelayState.OFF) := by
  have hmap : (get_relays dev).2
      = (List.range dev.relays.length).map
          (fun j => (j, if dev.relays.getD j false then RelayState.ON else RelayState.OFF)) := by
    unfold get_relays
    rw [foldl_append_eq_map]
    rfl
  constructor
  · rw [hmap]
    simp
  · rw [hmap, List.get?_map, List.get?_range h]
    have hgd : dev.relays.getD i false = dev.relays.get ⟨i, h⟩ := by
      rw [List.getD_eq_get?, List.get?_eq_get h]
      rfl
    rw [Option.map_some']
    rw [hgd]

theorem get_relays_spec_witness :
    1 < (Device.mk [true, false]).relays.length
  ∧ (((get_relays ⟨[true, false]⟩).2).length = (Device.mk [true, false]).relays.length
      ∧ ((get_relays ⟨[true, false]⟩).2).get? 1
          = some (1, if (Device.mk [true, false]).relays.get ⟨1, by decide⟩
                     then RelayState.ON else RelayState.OFF)) :=
  ⟨by decide, get_relays_spec ⟨[true, false]⟩ 1 (by decide)⟩

/-- C8: stop_oscillation is idempotent — iterating it any positive number of
times equals applying it once; the resulting flag is true; and the call emits
no events at all (no sleep, no HTTP request, no final-state enforcement: the
device is not even an input of the operation). -/
theorem stop_oscillation_idempotent (st : Shelly1) (n : ℕ) (hn : 0 < n) :
    (fun s => (stop_oscillation s).1)^[n] st = (stop_oscillation st).1
  ∧ ((stop_oscillation st).1).stop_oscillation = true
  ∧ (stop_oscillation st).2 = [] := by
  refine ⟨?_, rfl, rfl⟩
  obtain ⟨m, rfl⟩ : ∃ m, n = m + 1 := ⟨n - 1, by omega⟩
  rw [Function.iterate_succ_apply]
  exact Function.iterate_fixed rfl m

theorem stop_oscillation_idempotent_witness :
    0 < 3
  ∧ ((fun s => (stop_oscillation s).1)^[3] (Shelly1.init none 1)
        = (stop_oscillation (Shelly1.init none 1)).1
      ∧ ((stop_oscillation (Shelly1.init none 1)).1).stop_oscillation = true
      ∧ (stop_oscillation (Shelly1.init none 1)).2 = []) :=
  ⟨by decide, stop_oscillation_idempotent (Shelly1.init none 1) 3 (by decide)⟩

/-- C3 counterexample: in a newly constructed controller the stop flag is
true (line 31 of shelly.py sets `self._stop_oscillation = True`), so the
claim that it is initially false is wrong. -/
theorem stop_flag_initially_true_cex :
    ¬ ((Shelly1.init none 1).stop_oscillation = false) := by
  decide

/-- C3 amended: in every newly constructed controller the stop flag is
initially TRUE; every assignment writing false to it sits inside an
oscillation invocation (`oscillate`, the timeout watcher
`_stop_oscillation_in`, or `oscillate_cycles`), and `stop_oscillation`
itself only ever writes true, so once true the flag is reset to false only
by a fresh oscillation invocation. -/
theorem stop_flag_latch (host : Option String) (ht : ℚ) (st : Shelly1)
    (w : StopFlagWrite) :
    (Shelly1.init host ht).stop_oscillation = true
  ∧ (w.value = false →
      w.enclosing = ("oscillate") ∨ w.enclosing = ("_stop_oscillation_in")
        ∨ w.enclosing = ("oscillate_cycles"))
  ∧ (stop_oscillation st).1.stop_oscillation = true := by
  refine ⟨rfl, ?_, rfl⟩
  cases w <;> decide

theorem stop_flag_latch_witness :
    StopFlagWrite.value StopFlagWrite.oscillateLine116 = false
  ∧ (StopFlagWrite.enclosing StopFlagWrite.oscillateLine116 = ("oscillate")
      ∨ StopFlagWrite.enclosing StopFlagWrite.oscillateLine116 = ("_stop_oscillation_in")
      ∨ StopFlagWrite.enclosing StopFlagWrite.oscillateLine116 = ("oscillate_cycles"))
  ∧ (Shelly1.init none 1).stop_oscillation = true :=
  ⟨by decide,
    (stop_flag_latch none 1 (Shelly1.init none 1) StopFlagWrite.oscillateLine116).2.1
      (by decide),
    (stop_flag_latch none 1 (Shelly1.init none 1) StopFlagWrite.oscillateLine116).1⟩

/-- C1: the timeout watcher thread can never do its job.  The Thread call at
lines 179-180 passes kwargs start_state/final_state, but
`_stop_oscillation_in(period, timeout, final_state)` has no `start_state`
parameter, so Python's call binding raises TypeError the moment the thread
starts: for every argument tuple the watcher thread dies with no events, no
device change and no controller-state change — it never sets the stop flag
and never enforces final_state, so the terminal-state guarantee of the claim
cannot hold. -/
theorem watcher_thread_crashes (rid p tmo ss fs : PyVal) (st : Shelly1)
    (dev : Device) (readStop : ℕ → Bool) (polls fuel : ℕ) :
    runTarget (Target.stopOscillationInT rid p tmo ss fs) st dev readStop polls fuel
      = ⟨[], dev, st, .error PyErr.typeError⟩
  ∧ bindCall stopOscillationInParams [p, tmo]
      [(("start_state"), ss), (("final_state"), fs)] = .error PyErr.typeError :=
  ⟨rfl, rfl⟩

/-- C4 counterexample: one iteration of the unbounded oscillate loop starting
from counter 0 leaves the counter at 0 + 1 (line 123 adds 1 per toggle), and
0 + 1 is not 0 + 0.5, so the claim that every toggle loop adds +0.5 per
toggle fails on the unbounded loop. -/
theorem oscillate_counter_cex :
    oscillate_loop 0 1 (fun k => decide (1 ≤ k)) 0 ⟨[false]⟩ 0 2
      = .ok ([Event.statusReq, Event.powerReq 0 true, Event.sleep 1],
          ⟨[true]⟩, 0 + 1, 1)
  ∧ ¬ (((0 : ℚ) + 1) = 0 + (1/2 : ℚ)) := by
  constructor
  · have htog : toggle ⟨[false]⟩ 0
        = .ok ([Event.statusReq, Event.powerReq 0 true], ⟨[true]⟩, RelayState.ON) := rfl
    rw [show (2 : ℕ) = 1 + 1 from rfl,
      oscillate_loop_step (by rfl) htog]
    rw [show (1 : ℕ) = 0 + 1 from rfl, oscillate_loop]
    rw [if_pos (by rfl)]
    rfl
  · norm_num

/-- C4 amended: per toggle performed, the cycle-bounded loop of
oscillate_cycles increments the half-cycle counter by exactly +0.5
(line 229), while the unbounded loop of oscillate increments it by exactly
+1 (line 123). -/
theorem per_toggle_increment (rid : ℤ) (p cyc : ℚ) (readStop : ℕ → Bool) (k : ℕ)
    (dev dev2 : Device) (osc : ℚ) (fuel : ℕ) (evs : List Event) (s : RelayState)
    (hstop : readStop k = false)
    (htog : toggle dev rid = .ok (evs, dev2, s)) :
    oscillate_loop rid p readStop k dev osc (fuel + 1)
      = iterCons evs p (oscillate_loop rid p readStop (k + 1) dev2 (osc + 1) fuel)
  ∧ (osc < cyc →
      oscillate_cycles_loop rid p cyc readStop k dev osc (fuel + 1)
        = iterCons evs p
            (oscillate_cycles_loop rid p cyc readStop (k + 1) dev2 (osc + (1/2 : ℚ)) fuel)) :=
  ⟨oscillate_loop_step hstop htog,
    fun hosc => oscillate_cycles_loop_step hstop hosc htog⟩

theorem per_toggle_increment_witness :
    ((fun _ => false) 0 = false)
  ∧ toggle ⟨[false]⟩ 0
      = .ok ([Event.statusReq, Event.powerReq 0 true], ⟨[true]⟩, RelayState.ON)
  ∧ ((0 : ℚ) < 1)
  ∧ (oscillate_loop 0 1 (fun _ => false) 0 ⟨[false]⟩ 0 (1 + 1)
      = iterCons [Event.statusReq, Event.powerReq 0 true] 1
          (oscillate_loop 0 1 (fun _ => false) (0 + 1) ⟨[true]⟩ (0 + 1) 1))
  ∧ (oscillate_cycles_loop 0 1 1 (fun _ => false) 0 ⟨[false]⟩ 0 (1 + 1)
      = iterCons [Event.statusReq, Event.powerReq 0 true] 1
          (oscillate_cycles_loop 0 1 1 (fun _ => false) (0 + 1) ⟨[true]⟩
            (0 + (1/2 : ℚ)) 1)) :=
  ⟨rfl, rfl, by norm_num,
    (per_toggle_increment 0 1 1 (fun _ => false) 0 ⟨[false]⟩ ⟨[true]⟩ 0 1
      [Event.statusReq, Event.powerReq 0 true] RelayState.ON rfl rfl).1,
    (per_toggle_increment 0 1 1 (fun _ => false) 0 ⟨[false]⟩ ⟨[true]⟩ 0 1
      [Event.statusReq, Event.powerReq 0 true] RelayState.ON rfl rfl).2
      (by norm_num)⟩

theorem oscillate_nonblocking_eq {rid p : PyVal}
    (h : oscillate_asserts rid p (.bool false) = true)
    (st : Shelly1) (dev : Device) (readStop : ℕ → Bool) (fuel : ℕ) :
    oscillate rid p (.bool false) st dev readStop fuel
      = ⟨[Event.spawn (Target.oscillateT rid p)], dev, st,
          .ok (Ret.handle (Target.oscillateT rid p))⟩ := by
  unfold oscillate
  rw [if_pos h, if_neg (by decide : ¬ (PyVal.bool false = PyVal.bool true))]

theorem oscillate_cycles_nonblocking_eq {rid p cy ss fs : PyVal}
    (h : oscillate_cycles_asserts rid p cy (.bool false) ss fs = true)
    (st : Shelly1) (dev : Device) (readStop : ℕ → Bool) (fuel : ℕ) :
    oscillate_cycles rid p cy (.bool false) ss fs st dev readStop fuel
      = ⟨[Event.spawn (Target.oscillateCyclesT rid p cy ss fs)], dev, st,
          .ok (Ret.handle (Target.oscillateCyclesT rid p cy ss fs))⟩ := by
  unfold oscillate_cycles
  rw [if_pos h, if_neg (by decide : ¬ (PyVal.bool false = PyVal.bool true))]

/-- C6: with valid arguments, the non-blocking variants of oscillate and
oscillate_cycles emit no synchronous effect other than recording the thread
spawn (no HTTP request, no sleep — for oscillate_cycles the start-state setup
is not performed synchronously), leave device and controller state untouched,
and return the thread handle; and running the spawned thread — after Python
binds the call-site args/kwargs, under which `block` takes its default True —
is exactly the blocking variant on the same arguments. -/
theorem nonblocking_refinement (rid p cy ss fs : PyVal) (st : Shelly1)
    (dev : Device) (readStop : ℕ → Bool) (polls fuel : ℕ)
    (h1 : oscillate_asserts rid p (.bool false) = true)
    (h2 : oscillate_cycles_asserts rid p cy (.bool false) ss fs = true) :
    (oscillate rid p (.bool false) st dev readStop fuel
        = ⟨[Event.spawn (Target.oscillateT rid p)], dev, st,
            .ok (Ret.handle (Target.oscillateT rid p))⟩)
  ∧ (runTarget (Target.oscillateT rid p) st dev readStop polls fuel
        = oscillate rid p (.bool true) st dev readStop fuel)
  ∧ (oscillate_cycles rid p cy (.bool false) ss fs st dev readStop fuel
        = ⟨[Event.spawn (Target.oscillateCyclesT rid p cy ss fs)], dev, st,
            .ok (Ret.handle (Target.oscillateCyclesT rid p cy ss fs))⟩)
  ∧ (runTarget (Target.oscillateCyclesT rid p cy ss fs) st dev readStop polls fuel
        = oscillate_cycles rid p cy (.bool true) ss fs st dev readStop fuel) :=
  ⟨oscillate_nonblocking_eq h1 st dev readStop fuel, rfl,
    oscillate_cycles_nonblocking_eq h2 st dev readStop fuel, rfl⟩

theorem nonblocking_refinement_witness :
    oscillate_asserts (.int 0) (.float 1) (.bool false) = true
  ∧ oscillate_cycles_asserts (.int 0) (.float 1) (.int 1) (.bool false)
      (.bool true) (.bool false) = true
  ∧ ((oscillate (.int 0) (.float 1) (.bool false) (Shelly1.init none 1) ⟨[false]⟩
        (fun _ => false) 0
        = ⟨[Event.spawn (Target.oscillateT (.int 0) (.float 1))], ⟨[false]⟩,
            Shelly1.init none 1,
            .ok (Ret.handle (Target.oscillateT (.int 0) (.float 1)))⟩)
      ∧ (runTarget (Target.oscillateT (.int 0) (.float 1)) (Shelly1.init none 1)
            ⟨[false]⟩ (fun _ => false) 0 0
          = oscillate (.int 0) (.float 1) (.bool true) (Shelly1.init none 1)
              ⟨[false]⟩ (fun _ => false) 0)
      ∧ (oscillate_cycles (.int 0) (.float 1) (.int 1) (.bool false) (.bool true)
            (.bool false) (Shelly1.init none 1) ⟨[false]⟩ (fun _ => false) 0
          = ⟨[Event.spawn (Target.oscillateCyclesT (.int 0) (.float 1) (.int 1)
                (.bool true) (.bool false))], ⟨[false]⟩, Shelly1.init none 1,
              .ok (Ret.handle (Target.oscillateCyclesT (.int 0) (.float 1) (.int 1)
                (.bool true) (.bool false)))⟩)
      ∧ (runTarget (Target.oscillateCyclesT (.int 0) (.float 1) (.int 1) (.bool true)
            (.bool false)) (Shelly1.init none 1) ⟨[false]⟩ (fun _ => false) 0 0
          = oscillate_cycles (.int 0) (.float 1) (.int 1) (.bool true) (.bool true)
              (.bool false) (Shelly1.init none 1) ⟨[false]⟩ (fun _ => false) 0)) :=
  ⟨oscillate_asserts_true (by norm_num),
    oscillate_cycles_asserts_true (by norm_num) (by decide),
    nonblocking_refinement (.int 0) (.float 1) (.int 1) (.bool true) (.bool false)
      (Shelly1.init none 1) ⟨[false]⟩ (fun _ => false) 0 0
      (oscillate_asserts_true (by norm_num))
      (oscillate_cycles_asserts_true (by norm_num) (by decide))⟩

theorem oscillate_asserts_false {rid p : PyVal} (bl : PyVal)
    (h : rid.isInt = false ∨ (p.isNum = true ∧ p.toRatD < (1/20 : ℚ))) :
    oscillate_asserts rid p bl = false := by
  unfold oscillate_asserts
  rcases h with h | ⟨hnum, hlt⟩
  · rw [h]
    rfl
  · rw [numGE_false_of_lt hnum hlt]
    simp

theorem oscillate_timeout_asserts_false {rid p : PyVal} (tmo bl fs : PyVal)
    (h : rid.isInt = false ∨ (p.isNum = true ∧ p.toRatD < (1/20 : ℚ))) :
    oscillate_timeout_asserts rid p tmo bl fs = false := by
  unfold oscillate_timeout_asserts
  rcases h with h | ⟨hnum, hlt⟩
  · rw [h]
    rfl
  · rw [numGE_false_of_lt hnum hlt]
    simp

theorem oscillate_cycles_asserts_false {rid p : PyVal} (cy bl ss fs : PyVal)
    (h : rid.isInt = false ∨ (p.isNum = true ∧ p.toRatD < (1/20 : ℚ))) :
    oscillate_cycles_asserts rid p cy bl ss fs = false := by
  unfold oscillate_cycles_asserts
  rcases h with h | ⟨hnum, hlt⟩
  · rw [h]
    rfl
  · rw [numGE_false_of_lt hnum hlt]
    simp

theorem oscillate_timeout_asserts_false_tmo (rid p : PyVal) {tmo : PyVal}
    (bl fs : PyVal) (h : tmo.isInt = false ∨ tmo.intGT 0 = false) :
    oscillate_timeout_asserts rid p tmo bl fs = false := by
  unfold oscillate_timeout_asserts
  rcases h with h | h
  · cases tmo <;> simp_all [PyVal.isInt, PyVal.intGT]
  · rw [h]
    simp

theorem oscillate_cycles_asserts_false_cy (rid p : PyVal) {cy : PyVal}
    (bl ss fs : PyVal) (h : cy.isInt = false ∨ cy.intGT 0 = false) :
    oscillate_cycles_asserts rid p cy bl ss fs = false := by
  unfold oscillate_cycles_asserts
  rcases h with h | h
  · cases cy <;> simp_all [PyVal.isInt, PyVal.intGT]
  · rw [h]
    simp

/-- C7: a call with relay_id not an int, or a numeric period below 0.05, is
rejected by the leading asserts of all three oscillation entry points, and a
timeout or cycles argument that is not a positive int is rejected by the
entry point taking it — in each case the outcome is an AssertionError raised
as the call's result (the process continues), with an empty event trace:
no HTTP request was issued, no sleep happened, and no thread was spawned
(spawns are trace events), and device and controller state are untouched. -/
theorem invalid_params_rejected (rid p tmo cy bl ss fs : PyVal) (st : Shelly1)
    (dev : Device) (readStop : ℕ → Bool) (fuel : ℕ) :
    ((rid.isInt = false ∨ (p.isNum = true ∧ p.toRatD < (1/20 : ℚ))) →
        oscillate rid p bl st dev readStop fuel
          = ⟨[], dev, st, .error .assertionError⟩
      ∧ oscillate_timeout rid p tmo bl ss fs st dev
          = ⟨[], dev, st, .error .assertionError⟩
      ∧ oscillate_cycles rid p cy bl ss fs st dev readStop fuel
          = ⟨[], dev, st, .error .assertionError⟩)
  ∧ ((tmo.isInt = false ∨ tmo.intGT 0 = false) →
      oscillate_timeout rid p tmo bl ss fs st dev
        = ⟨[], dev, st, .error .assertionError⟩)
  ∧ ((cy.isInt = false ∨ cy.intGT 0 = false) →
      oscillate_cycles rid p cy bl ss fs st dev readStop fuel
        = ⟨[], dev, st, .error .assertionError⟩) := by
  refine ⟨fun h => ⟨?_, ?_, ?_⟩, fun h => ?_, fun h => ?_⟩
  · unfold oscillate
    rw [if_neg (by simp [oscillate_asserts_false bl h])]
  · unfold oscillate_timeout
    rw [if_neg (by simp [oscillate_timeout_asserts_false tmo bl fs h])]
  · unfold oscillate_cycles
    rw [if_neg (by simp [oscillate_cycles_asserts_false cy bl ss fs h])]
  · unfold oscillate_timeout
    rw [if_neg (by simp [oscillate_timeout_asserts_false_tmo rid p bl fs h])]
  · unfold oscillate_cycles
    rw [if_neg (by simp [oscillate_cycles_asserts_false_cy rid p bl ss fs h])]

theorem invalid_params_rejected_witness :
    ((PyVal.float (1/25 : ℚ)).isNum = true
      ∧ (PyVal.float (1/25 : ℚ)).toRatD < (1/20 : ℚ))
  ∧ ((PyVal.int 0).intGT 0 = false)
  ∧ (PyVal.pynone.isInt = false)
  ∧ (oscillate (.int 0) (.float (1/25 : ℚ)) (.bool true) (Shelly1.init none 1)
        ⟨[false]⟩ (fun _ => false) 1
        = ⟨[], ⟨[false]⟩, Shelly1.init none 1, .error .assertionError⟩
      ∧ oscillate_timeout (.int 0) (.float (1/25 : ℚ)) (.int 0) (.bool true)
          (.bool true) (.bool false) (Shelly1.init none 1) ⟨[false]⟩
        = ⟨[], ⟨[false]⟩, Shelly1.init none 1, .error .assertionError⟩
      ∧ oscillate_cycles (.int 0) (.float (1/25 : ℚ)) PyVal.pynone (.bool true)
          (.bool true) (.bool false) (Shelly1.init none 1) ⟨[false]⟩
          (fun _ => false) 1
        = ⟨[], ⟨[false]⟩, Shelly1.init none 1, .error .assertionError⟩)
  ∧ (oscillate_timeout (.int 0) (.float (1/25 : ℚ)) (.int 0) (.bool true)
        (.bool true) (.bool false) (Shelly1.init none 1) ⟨[false]⟩
      = ⟨[], ⟨[false]⟩, Shelly1.init none 1, .error .assertionError⟩)
  ∧ (oscillate_cycles (.int 0) (.float (1/25 : ℚ)) PyVal.pynone (.bool true)
        (.bool true) (.bool false) (Shelly1.init none 1) ⟨[false]⟩
        (fun _ => false) 1
      = ⟨[], ⟨[false]⟩, Shelly1.init none 1, .error .assertionError⟩) :=
  ⟨⟨rfl, by norm_num [PyVal.toRatD]⟩, by decide, rfl,
    (invalid_params_rejected (.int 0) (.float (1/25 : ℚ)) (.int 0) PyVal.pynone
      (.bool true) (.bool true) (.bool false) (Shelly1.init none 1) ⟨[false]⟩
      (fun _ => false) 1).1 (Or.inr ⟨rfl, by norm_num [PyVal.toRatD]⟩),
    (invalid_params_rejected (.int 0) (.float (1/25 : ℚ)) (.int 0) PyVal.pynone
      (.bool true) (.bool true) (.bool false) (Shelly1.init none 1) ⟨[false]⟩
      (fun _ => false) 1).2.1 (Or.inr (by decide)),
    (invalid_params_rejected (.int 0) (.float (1/25 : ℚ)) (.int 0) PyVal.pynone
      (.bool true) (.bool true) (.bool false) (Shelly1.init none 1) ⟨[false]⟩
      (fun _ => false) 1).2.2 (Or.inl rfl)⟩

/-- Evaluation of `oscillate_timeout` with valid, well-typed arguments: one
status read; a set-power plus settling sleep when the relay is not already at
start_state; then the two thread spawns; then the join when blocking; and the
result is always None (the function has no return statement). -/
theorem oscillate_timeout_eval (rid : ℤ) (p : ℚ) (tmo : ℤ) (bl ss fs : Bool)
    (st : Shelly1) (dev : Device) (b : Bool)
    (hp : (1/20 : ℚ) ≤ p) (htmo : 0 < tmo)
    (hb : pyGet dev.relays rid = some b) :
    oscillate_timeout (.int rid) (.float p) (.int tmo) (.bool bl) (.bool ss)
        (.bool fs) st dev
      = ⟨[Event.statusReq]
          ++ (if b = ss then [] else [Event.powerReq rid ss, Event.sleep p])
          ++ [Event.spawn (Target.oscillateT (.int rid) (.float p)),
              Event.spawn (Target.stopOscillationInT (.int rid) (.float p)
                (.int tmo) (.bool ss) (.bool fs))]
          ++ (if bl then
                [Event.joinThread (Target.stopOscillationInT (.int rid) (.float p)
                  (.int tmo) (.bool ss) (.bool fs))]
              else []),
          (if b = ss then dev else ⟨pySet dev.relays rid ss⟩), st,
          .ok Ret.pynone⟩ := by
  have hval : validIdx rid dev := validIdx_of_pyGet hb
  have hget : get_relay_state dev rid
      = .ok ([Event.statusReq], if b then RelayState.ON else RelayState.OFF) := by
    unfold get_relay_state
    rw [hb]
  have hsv : (if b then RelayState.ON else RelayState.OFF).value = b := by
    cases b <;> rfl
  unfold oscillate_timeout
  rw [if_pos (oscillate_timeout_asserts_true hp htmo)]
  simp only [PyVal.toIntD, PyVal.toBoolD, PyVal.toRatD]
  rw [hget]
  dsimp only
  rw [hsv]
  by_cases hbs : b = ss
  · rw [if_pos hbs, if_pos hbs]
    dsimp only
    rw [oscillate_nonblocking_eq (oscillate_asserts_true hp)]
    cases bl <;> simp [hbs]
  · rw [if_neg hbs, if_neg hbs, power_ok ss hval]
    dsimp only
    rw [oscillate_nonblocking_eq (oscillate_asserts_true hp)]
    cases bl <;> simp [hbs]

/-- C9: with valid arguments and the relay not already at start_state, the
non-blocking oscillate_timeout performs the set-power to start_state and the
one-period settling sleep synchronously on the caller's thread, strictly
before the toggle-loop thread and the watcher thread are spawned and before
the call returns; the start-state setup of timeout mode never moves to a
background thread. -/
theorem timeout_setup_synchronous (rid : ℤ) (p : ℚ) (tmo : ℤ) (ss fs : Bool)
    (st : Shelly1) (dev : Device) (b : Bool)
    (hp : (1/20 : ℚ) ≤ p) (htmo : 0 < tmo)
    (hb : pyGet dev.relays rid = some b) (hneq : ¬ (b = ss)) :
    oscillate_timeout (.int rid) (.float p) (.int tmo) (.bool false) (.bool ss)
        (.bool fs) st dev
      = ⟨[Event.statusReq, Event.powerReq rid ss, Event.sleep p,
          Event.spawn (Target.oscillateT (.int rid) (.float p)),
          Event.spawn (Target.stopOscillationInT (.int rid) (.float p) (.int tmo)
            (.bool ss) (.bool fs))],
          ⟨pySet dev.relays rid ss⟩, st, .ok Ret.pynone⟩ := by
  rw [oscillate_timeout_eval rid p tmo false ss fs st dev b hp htmo hb]
  simp [hneq]

theorem timeout_setup_synchronous_witness :
    ((1/20 : ℚ) ≤ 1 ∧ (0 : ℤ) < 2 ∧ pyGet (Device.mk [false]).relays 0 = some false
      ∧ ¬ (false = true))
  ∧ oscillate_timeout (.int 0) (.float 1) (.int 2) (.bool false) (.bool true)
        (.bool false) (Shelly1.init none 1) ⟨[false]⟩
      = ⟨[Event.statusReq, Event.powerReq 0 true, Event.sleep 1,
          Event.spawn (Target.oscillateT (.int 0) (.float 1)),
          Event.spawn (Target.stopOscillationInT (.int 0) (.float 1) (.int 2)
            (.bool true) (.bool false))],
          ⟨pySet (Device.mk [false]).relays 0 true⟩, Shelly1.init none 1,
          .ok Ret.pynone⟩ :=
  ⟨⟨by norm_num, by decide, rfl, by decide⟩,
    timeout_setup_synchronous 0 1 2 true false (Shelly1.init none 1) ⟨[false]⟩
      false (by norm_num) (by decide) rfl (by decide)⟩

/-- C2 fails on the code: `oscillate_timeout` has no return statement, so for
block=False it returns None rather than the promised handle to the watcher
thread (contradicting its own docstring, line 141), and None is not a thread
handle; moreover the watcher it spawns crashes immediately (see the C1
theorem), so for block=True the join does not last the timeout plus grace
period either. -/
theorem oscillate_timeout_returns_none (rid : ℤ) (p : ℚ) (tmo : ℤ)
    (bl ss fs : Bool) (st : Shelly1) (dev : Device) (b : Bool)
    (hp : (1/20 : ℚ) ≤ p) (htmo : 0 < tmo)
    (hb : pyGet dev.relays rid = some b) :
    (oscillate_timeout (.int rid) (.float p) (.int tmo) (.bool bl) (.bool ss)
        (.bool fs) st dev).res = .ok Ret.pynone
  ∧ (∀ t : Target, ¬ (Ret.pynone = Ret.handle t)) := by
  rw [oscillate_timeout_eval rid p tmo bl ss fs st dev b hp htmo hb]
  exact ⟨rfl, fun t h => Ret.noConfusion h⟩

theorem oscillate_timeout_returns_none_witness :
    ((1/20 : ℚ) ≤ 1 ∧ (0 : ℤ) < 2 ∧ pyGet (Device.mk [false]).relays 0 = some false)
  ∧ ((oscillate_timeout (.int 0) (.float 1) (.int 2) (.bool false) (.bool true)
        (.bool false) (Shelly1.init none 1) ⟨[false]⟩).res = .ok Ret.pynone
      ∧ (∀ t : Target, ¬ (Ret.pynone = Ret.handle t))) :=
  ⟨⟨by norm_num, by decide, rfl⟩,
    oscillate_timeout_returns_none 0 1 2 false true false (Shelly1.init none 1)
      ⟨[false]⟩ false (by norm_num) (by decide) rfl⟩

/-- C5: a valid blocking oscillate_cycles call with the stop flag never set
externally runs its toggle loop for exactly 2*cycles toggles before the
final-state enforcement (the loop's iteration count is 2*c and its counter
ends at exactly c), and the method ends with `_oscillations = cycles`
starting the count at 0 only after the start-state setup — the transition
into start_state is a `power` call, not a toggle, and is issued before the
counter reset, so it never contributes to the count (the result holds for
every initial device state, whether or not the setup command fires). -/
theorem oscillate_cycles_exactness (rid : ℤ) (p : ℚ) (c : ℕ) (ss fs : Bool)
    (st : Shelly1) (dev : Device) (fuel : ℕ)
    (hp : (1/20 : ℚ) ≤ p) (hc : 0 < c) (hrid : validIdx rid dev)
    (hfuel : 2 * c < fuel) :
    (∃ evs dev2,
      oscillate_cycles_loop rid p (c : ℚ) (fun _ => false) 0 dev 0 fuel
        = .ok (evs, dev2, (c : ℚ), 2 * c))
  ∧ (oscillate_cycles (.int rid) (.float p) (.int (c : ℤ)) (.bool true) (.bool ss)
        (.bool fs) st dev (fun _ => false) fuel).st
      = { st with stop_oscillation := false, oscillations := (c : ℚ) }
  ∧ (oscillate_cycles (.int rid) (.float p) (.int (c : ℤ)) (.bool true) (.bool ss)
        (.bool fs) st dev (fun _ => false) fuel).res = .ok Ret.pynone := by
  have hloop0 : ∀ d : Device, validIdx rid d → ∃ evs dev2,
      oscillate_cycles_loop rid p (c : ℚ) (fun _ => false) 0 d 0 fuel
        = .ok (evs, dev2, (c : ℚ), 2 * c)
      ∧ dev2.relays.length = d.relays.length := by
    intro d hd
    obtain ⟨evs, dev2, heq, hlen⟩ :=
      oscillate_cycles_loop_count rid p c fuel 0 0 d hd (by omega) (by omega)
    rw [show ((0 : ℕ) : ℚ) / 2 = 0 by norm_num, Nat.sub_zero] at heq
    exact ⟨evs, dev2, heq, hlen⟩
  refine ⟨(hloop0 dev hrid).imp (fun evs h => h.imp (fun dev2 h => h.1)), ?_⟩
  unfold oscillate_cycles
  rw [if_pos (oscillate_cycles_asserts_true hp (by exact_mod_cast hc)), if_pos rfl]
  simp only [PyVal.toIntD, PyVal.toBoolD, PyVal.toRatD]
  rw [Int.cast_natCast]
  obtain ⟨b, hb, hget⟩ := get_relay_state_ok hrid
  rw [hget]
  dsimp only
  rw [show (if b then RelayState.ON else RelayState.OFF).value = b by cases b <;> rfl]
  by_cases hbs : b = ss
  · rw [if_pos hbs]
    dsimp only
    obtain ⟨evsC, devC, hloopEq, hlenC⟩ := hloop0 dev hrid
    rw [hloopEq]
    dsimp only
    obtain ⟨b2, hb2, hget2⟩ := get_relay_state_ok (validIdx_congr hlenC hrid)
    rw [hget2]
    dsimp only
    rw [show (if b2 then RelayState.ON else RelayState.OFF).value = b2 by cases b2 <;> rfl]
    by_cases hbf : b2 = fs
    · rw [if_pos hbf]
      exact ⟨rfl, rfl⟩
    · rw [if_neg hbf, power_ok fs (validIdx_congr hlenC hrid)]
      exact ⟨rfl, rfl⟩
  · rw [if_neg hbs, power_ok ss hrid]
    dsimp only
    have hvB : validIdx rid (Device.mk (pySet dev.relays rid ss)) :=
      validIdx_congr (pySet_length dev.relays rid ss) hrid
    obtain ⟨evsC, devC, hloopEq, hlenC⟩ := hloop0 ⟨pySet dev.relays rid ss⟩ hvB
    rw [hloopEq]
    dsimp only
    obtain ⟨b2, hb2, hget2⟩ := get_relay_state_ok (validIdx_congr hlenC hvB)
    rw [hget2]
    dsimp only
    rw [show (if b2 then RelayState.ON else RelayState.OFF).value = b2 by cases b2 <;> rfl]
    by_cases hbf : b2 = fs
    · rw [if_pos hbf]
      exact ⟨rfl, rfl⟩
    · rw [if_neg hbf, power_ok fs (validIdx_congr hlenC hvB)]
      exact ⟨rfl, rfl⟩

theorem oscillate_cycles_exactness_witness :
    ((1/20 : ℚ) ≤ 1 ∧ 0 < 1 ∧ validIdx 0 ⟨[false]⟩ ∧ 2 * 1 < 3)
  ∧ ((∃ evs dev2,
        oscillate_cycles_loop 0 1 ((1 : ℕ) : ℚ) (fun _ => false) 0 ⟨[false]⟩ 0 3
          = .ok (evs, dev2, ((1 : ℕ) : ℚ), 2 * 1))
      ∧ (oscillate_cycles (.int 0) (.float 1) (.int ((1 : ℕ) : ℤ)) (.bool true)
            (.bool true) (.bool false) (Shelly1.init none 1) ⟨[false]⟩
            (fun _ => false) 3).st
          = { (Shelly1.init none 1) with
              stop_oscillation := false
              oscillations := ((1 : ℕ) : ℚ) }
      ∧ (oscillate_cycles (.int 0) (.float 1) (.int ((1 : ℕ) : ℤ)) (.bool true)
            (.bool true) (.bool false) (Shelly1.init none 1) ⟨[false]⟩
            (fun _ => false) 3).res = .ok Ret.pynone) :=
  ⟨⟨by norm_num, by decide, by decide, by decide⟩,
    oscillate_cycles_exactness 0 1 1 true false (Shelly1.init none 1) ⟨[false]⟩ 3
      (by norm_num) (by decide) (by decide) (by decide)⟩
